import Mathlib

/-!
Shallow embedding of `PythonAPI/examples/synchronous_mode.py`, class
`CarlaSyncMode`, together with a model of the external simulation handle
(`carla.World`) that the class manipulates.  Delivered sensor items are
modelled as records carrying their `frame` id plus an opaque payload tag;
per-producer queues are FIFO lists (head = front); blocking
`queue.Queue.get(timeout=...)` is modelled by treating the list as the
items available within the timeout window, so an exhausted queue with no
matching item corresponds to a `queue.Empty` timeout.
-/

namespace SyncMode

/-- Simulation settings as constructed by
`carla.WorldSettings(no_rendering_mode=..., synchronous_mode=..., fixed_delta_seconds=...)`.
Python floats are modelled as rationals. -/
structure WorldSettings where
  no_rendering_mode : Bool
  synchronous_mode : Bool
  fixed_delta_seconds : ℚ
deriving DecidableEq

/-- A delivered item: the only field the synchronizer inspects is `frame`;
`payload` is an opaque tag distinguishing otherwise identical deliveries. -/
structure Item where
  frame : Nat
  payload : Nat
deriving DecidableEq

/-- The external simulation handle (`carla.World`).  `frame` is the current
frame counter, `applyCount` instruments how many times `apply_settings` has
been invoked on the handle (observational, used to count restorations). -/
structure World where
  settings : WorldSettings
  frame : Nat
  applyCount : Nat
deriving DecidableEq

/-- `world.apply_settings(s)`: installs the settings and returns the frame id
at which they took effect. -/
def World.apply_settings (w : World) (s : WorldSettings) : World × Nat :=
  ({ w with settings := s, applyCount := w.applyCount + 1 }, w.frame)

/-- `world.tick()`: advances the stepped simulation by exactly one frame and
returns the new frame id. -/
def World.tick (w : World) : World × Nat :=
  ({ w with frame := w.frame + 1 }, w.frame + 1)

/-- Registration tag of a queue: the simulation's own `on_tick` event queue,
or the queue of the i-th sensor passed at construction. -/
inductive Source where
  | simEvent : Source
  | producer : Nat → Source
deriving DecidableEq

/-- One per-producer FIFO queue together with its registration tag.
`items` head is the front of the queue (oldest delivery). -/
structure TaggedQueue where
  src : Source
  items : List Item
deriving DecidableEq

/-- State of a `CarlaSyncMode` instance: `sensors` is the number of sensor
producers supplied at construction, the remaining fields mirror
`self.frame`, `self.delta_seconds`, `self._queues` and `self._settings`. -/
structure CarlaSyncMode where
  sensors : Nat
  frame : Option Nat
  delta_seconds : ℚ
  _queues : List TaggedQueue
  _settings : Option WorldSettings
deriving DecidableEq

/-- Errors a `tick` call can surface: the `queue.Empty` timeout raised by
`Queue.get(timeout=...)`, and the `AssertionError` of the post-condition
`assert all(x.frame == self.frame for x in data)`. -/
inductive TickError where
  | timeout : TickError
  | assertionFailed : TickError
deriving DecidableEq

/-- Error surfaced by `__exit__` when no settings were ever captured
(i.e. `apply_settings(None)` would be called). -/
inductive ExitError where
  | noSavedSettings : ExitError
deriving DecidableEq

/-- `CarlaSyncMode.__init__(world, *sensors, **kwargs)`:
`self.frame = None`, `self.delta_seconds = 1.0 / kwargs.get("fps", 20)`,
`self._queues = []`, `self._settings = None`.  The `fps` keyword argument is
the configured tick rate. -/
def CarlaSyncMode.init (sensors : Nat) (fps : Option ℚ) : CarlaSyncMode :=
  { sensors := sensors
    frame := none
    delta_seconds := 1 / fps.getD 20
    _queues := []
    _settings := none }

/-- `CarlaSyncMode.__enter__`: capture `world.get_settings()` into
`self._settings`, then apply the new settings
`WorldSettings(no_rendering_mode=False, synchronous_mode=True,
fixed_delta_seconds=self.delta_seconds)` storing the returned frame id into
`self.frame`, then register one fresh queue for `world.on_tick` followed by
one per sensor, in the order supplied (`self._queues.append`). -/
def CarlaSyncMode.enter (w : World) (s : CarlaSyncMode) : World × CarlaSyncMode :=
  ((w.apply_settings (WorldSettings.mk false true s.delta_seconds)).1,
   { s with
     _settings := some w.settings
     frame := some (w.apply_settings (WorldSettings.mk false true s.delta_seconds)).2
     _queues := s._queues ++
       (TaggedQueue.mk Source.simEvent [] ::
        (List.range s.sensors).map (fun i => TaggedQueue.mk (Source.producer i) [])) })

/-- `CarlaSyncMode._retrieve_data(sensor_queue, timeout)`: repeatedly
`get` items from the front; return the first whose `frame` equals the
current frame `f`, discarding every non-matching item popped on the way.
An exhausted queue models the `get` timing out (`queue.Empty`). -/
def CarlaSyncMode._retrieve_data (f : Nat) : List Item → Except TickError (Item × List Item)
  | [] => Except.error TickError.timeout
  | d :: rest =>
    if d.frame = f then Except.ok (d, rest) else CarlaSyncMode._retrieve_data f rest

/-- The list comprehension `[self._retrieve_data(q, timeout) for q in self._queues]`:
queues are processed in registration order; the first failure aborts the
comprehension, leaving the failing queue drained and every later queue
untouched.  Returns the bundle (or the error) together with the queues'
contents after the call. -/
def CarlaSyncMode.retrieveAll (f : Nat) :
    List TaggedQueue → Except TickError (List Item) × List TaggedQueue
  | [] => (Except.ok [], [])
  | q :: qs =>
    match CarlaSyncMode._retrieve_data f q.items with
    | Except.error e => (Except.error e, TaggedQueue.mk q.src [] :: qs)
    | Except.ok (d, rest) =>
      match CarlaSyncMode.retrieveAll f qs with
      | (Except.error e, qs') => (Except.error e, TaggedQueue.mk q.src rest :: qs')
      | (Except.ok items, qs') => (Except.ok (d :: items), TaggedQueue.mk q.src rest :: qs')

/-- The post-condition `assert all(x.frame == self.frame for x in data)`:
passes the bundle through unchanged when every item matches the current
frame, raises `AssertionError` otherwise; errors propagate. -/
def checkFrames (f : Nat) (r : Except TickError (List Item)) : Except TickError (List Item) :=
  match r with
  | Except.error e => Except.error e
  | Except.ok data =>
    if data.all (fun x => x.frame == f) then Except.ok data
    else Except.error TickError.assertionFailed

/-- `CarlaSyncMode.tick(timeout)`: `self.frame = self.world.tick()`, then
retrieve one item per queue, then assert frame alignment and return the
bundle.  The resulting world, instance state and result are all returned;
note the state update to `self.frame` and the queue draining happen whether
or not the retrieval subsequently fails. -/
def CarlaSyncMode.tick (w : World) (s : CarlaSyncMode) :
    World × CarlaSyncMode × Except TickError (List Item) :=
  ((w.tick).1,
   { s with
     frame := some (w.tick).2
     _queues := (CarlaSyncMode.retrieveAll (w.tick).2 s._queues).2 },
   checkFrames (w.tick).2 (CarlaSyncMode.retrieveAll (w.tick).2 s._queues).1)

/-- `CarlaSyncMode.__exit__`: `self.world.apply_settings(self._settings)`.
`self._settings` is never cleared, so every invocation re-applies the
captured settings; applying before any capture (still `None`) fails. -/
def CarlaSyncMode.exitScope (w : World) (s : CarlaSyncMode) :
    Except ExitError (World × CarlaSyncMode) :=
  match s._settings with
  | none => Except.error ExitError.noSavedSettings
  | some saved => Except.ok ((w.apply_settings saved).1, s)

/-- Asynchronous delivery between steps: the registered callbacks
(`q.put`) append newly produced items at the back of each queue, in
registration order.  Queues with no delivery are unchanged. -/
def pushAll : List TaggedQueue → List (List Item) → List TaggedQueue
  | qs, [] => qs
  | [], _ => []
  | q :: qs, d :: ds => TaggedQueue.mk q.src (q.items ++ d) :: pushAll qs ds

/-- One iteration of the caller's loop inside the `with` block: some
deliveries arrive, then `tick` is called.  The world and instance state are
kept whether the tick succeeded or timed out (a Python exception would skip
the rest of the block but the state mutations already performed remain). -/
def tickStep (ds : List (List Item)) (p : World × CarlaSyncMode) : World × CarlaSyncMode :=
  ((CarlaSyncMode.tick p.1 { p.2 with _queues := pushAll p.2._queues ds }).1,
   (CarlaSyncMode.tick p.1 { p.2 with _queues := pushAll p.2._queues ds }).2.1)

/-- The body of the `with` block: any finite sequence of delivery-then-tick
iterations.  A block that exits early via an exception corresponds to the
prefix of steps actually executed. -/
def runBody (steps : List (List (List Item))) (p : World × CarlaSyncMode) :
    World × CarlaSyncMode :=
  steps.foldl (fun q ds => tickStep ds q) p

/-! Helper lemmas about `_retrieve_data`. -/

/-- A returned item always carries the requested frame id. -/
theorem retrieve_ok_frame (f : Nat) :
    ∀ (l rest : List Item) (d : Item),
      CarlaSyncMode._retrieve_data f l = Except.ok (d, rest) → d.frame = f := by
  intro l
  induction l with
  | nil => intro rest d h; simp [CarlaSyncMode._retrieve_data] at h
  | cons x xs ih =>
    intro rest d h
    by_cases hx : x.frame = f
    · simp [CarlaSyncMode._retrieve_data, hx] at h
      rw [← h.1, hx]
    · simp [CarlaSyncMode._retrieve_data, hx] at h
      exact ih rest d h

/-- Retrieval skips an arbitrary run of non-matching items and returns the
first matching one, leaving exactly the items behind it in the queue. -/
theorem retrieve_skips (f : Nat) :
    ∀ (pre : List Item) (d : Item) (rest : List Item),
      (∀ x ∈ pre, x.frame ≠ f) → d.frame = f →
      CarlaSyncMode._retrieve_data f (pre ++ d :: rest) = Except.ok (d, rest) := by
  intro pre
  induction pre with
  | nil => intro d rest _ hd; simp [CarlaSyncMode._retrieve_data, hd]
  | cons x xs ih =>
    intro d rest hpre hd
    have hx : x.frame ≠ f := hpre x (List.mem_cons_self x xs)
    simp only [List.cons_append, CarlaSyncMode._retrieve_data, if_neg hx]
    exact ih d rest (fun y hy => hpre y (List.mem_cons_of_mem x hy)) hd

/-- If no item in the queue matches, retrieval times out. -/
theorem retrieve_no_match (f : Nat) :
    ∀ l : List Item, (∀ x ∈ l, x.frame ≠ f) →
      CarlaSyncMode._retrieve_data f l = Except.error TickError.timeout := by
  intro l
  induction l with
  | nil => intro _; rfl
  | cons x xs ih =>
    intro h
    have hx : x.frame ≠ f := h x (List.mem_cons_self x xs)
    simp only [CarlaSyncMode._retrieve_data, if_neg hx]
    exact ih (fun y hy => h y (List.mem_cons_of_mem x hy))

/-- The only error retrieval can produce is a timeout. -/
theorem retrieve_error_eq (f : Nat) :
    ∀ (l : List Item) (e : TickError),
      CarlaSyncMode._retrieve_data f l = Except.error e → e = TickError.timeout := by
  intro l
  induction l with
  | nil =>
    intro e h
    simp [CarlaSyncMode._retrieve_data] at h
    exact h.symm
  | cons x xs ih =>
    intro e h
    by_cases hx : x.frame = f
    · simp [CarlaSyncMode._retrieve_data, hx] at h
    · simp only [CarlaSyncMode._retrieve_data, if_neg hx] at h
      exact ih e h

/-- The item returned is the first match in the queue, in `find?` terms. -/
theorem retrieve_find (f : Nat) :
    ∀ (l rest : List Item) (d : Item),
      CarlaSyncMode._retrieve_data f l = Except.ok (d, rest) →
      l.find? (fun x => x.frame == f) = some d := by
  intro l
  induction l with
  | nil => intro rest d h; simp [CarlaSyncMode._retrieve_data] at h
  | cons x xs ih =>
    intro rest d h
    by_cases hx : x.frame = f
    · simp [CarlaSyncMode._retrieve_data, hx] at h
      rw [← h.1]
      simp [List.find?, hx]
    · simp only [CarlaSyncMode._retrieve_data, if_neg hx] at h
      have : (x.frame == f) = false := by simp [hx]
      simp [List.find?, this]
      exact ih rest d h

/-- The remaining queue is a suffix of the original one: only front items
were consumed, everything behind the match is untouched. -/
theorem retrieve_suffix (f : Nat) :
    ∀ (l rest : List Item) (d : Item),
      CarlaSyncMode._retrieve_data f l = Except.ok (d, rest) → rest.IsSuffix l := by
  intro l
  induction l with
  | nil => intro rest d h; simp [CarlaSyncMode._retrieve_data] at h
  | cons x xs ih =>
    intro rest d h
    by_cases hx : x.frame = f
    · simp [CarlaSyncMode._retrieve_data, hx] at h
      rw [← h.2]
      exact List.suffix_cons x xs
    · simp only [CarlaSyncMode._retrieve_data, if_neg hx] at h
      exact (ih rest d h).trans (List.suffix_cons x xs)

/-! Helper lemmas about `retrieveAll`. -/

/-- The number of registered queues never changes across a retrieval pass. -/
theorem retrieveAll_length (f : Nat) :
    ∀ qs : List TaggedQueue, (CarlaSyncMode.retrieveAll f qs).2.length = qs.length := by
  intro qs
  induction qs with
  | nil => rfl
  | cons q qs ih =>
    simp only [CarlaSyncMode.retrieveAll]
    cases h : CarlaSyncMode._retrieve_data f q.items with
    | error e => simp
    | ok p =>
      cases p with
      | mk d rest =>
        cases h2 : CarlaSyncMode.retrieveAll f qs with
        | mk r qs' =>
          cases r with
          | error e => simpa [h2] using ih
          | ok items => simpa [h2] using ih

/-- Every item of a successful bundle carries the requested frame id. -/
theorem retrieveAll_ok_frames (f : Nat) :
    ∀ (qs : List TaggedQueue) (items : List Item),
      (CarlaSyncMode.retrieveAll f qs).1 = Except.ok items →
      ∀ x ∈ items, x.frame = f := by
  intro qs
  induction qs with
  | nil =>
    intro items h
    simp only [CarlaSyncMode.retrieveAll] at h
    cases h
    intro x hx
    simp at hx
  | cons q qs ih =>
    intro items h
    simp only [CarlaSyncMode.retrieveAll] at h
    cases hr : CarlaSyncMode._retrieve_data f q.items with
    | error e => rw [hr] at h; simp at h
    | ok p =>
      cases p with
      | mk d rest =>
        rw [hr] at h
        cases h2 : CarlaSyncMode.retrieveAll f qs with
        | mk r qs' =>
          cases r with
          | error e => rw [h2] at h; simp at h
          | ok items' =>
            rw [h2] at h
            simp at h
            intro x hx
            rw [← h] at hx
            rcases List.mem_cons.1 hx with h3 | h3
            · rw [h3]; exact retrieve_ok_frame f q.items rest d hr
            · exact ih items' (by rw [h2]) x h3

/-- A successful bundle pairs up with the queues index-wise: the i-th item
is the first matching item of the i-th registered queue. -/
theorem retrieveAll_ok_find (f : Nat) :
    ∀ (qs : List TaggedQueue) (items : List Item),
      (CarlaSyncMode.retrieveAll f qs).1 = Except.ok items →
      qs.map (fun q => q.items.find? (fun x => x.frame == f)) = items.map some := by
  intro qs
  induction qs with
  | nil =>
    intro items h
    simp only [CarlaSyncMode.retrieveAll] at h
    cases h
    rfl
  | cons q qs ih =>
    intro items h
    simp only [CarlaSyncMode.retrieveAll] at h
    cases hr : CarlaSyncMode._retrieve_data f q.items with
    | error e => rw [hr] at h; simp at h
    | ok p =>
      cases p with
      | mk d rest =>
        rw [hr] at h
        cases h2 : CarlaSyncMode.retrieveAll f qs with
        | mk r qs' =>
          cases r with
          | error e => rw [h2] at h; simp at h
          | ok items' =>
            rw [h2] at h
            simp at h
            rw [← h]
            simp only [List.map_cons]
            rw [retrieve_find f q.items rest d hr, ih items' (by rw [h2])]

/-- If some registered queue holds no matching item at all, the pass fails
with a timeout (the first starved queue raises it). -/
theorem retrieveAll_timeout (f : Nat) :
    ∀ qs : List TaggedQueue,
      (∃ q ∈ qs, ∀ x ∈ q.items, x.frame ≠ f) →
      (CarlaSyncMode.retrieveAll f qs).1 = Except.error TickError.timeout := by
  intro qs
  induction qs with
  | nil => rintro ⟨q, hq, _⟩; simp at hq
  | cons q0 qs ih =>
    rintro ⟨q, hq, hnone⟩
    rcases List.mem_cons.1 hq with h3 | h3
    · have : CarlaSyncMode._retrieve_data f q0.items = Except.error TickError.timeout := by
        rw [← h3]; exact retrieve_no_match f q.items hnone
      simp [CarlaSyncMode.retrieveAll, this]
    · simp only [CarlaSyncMode.retrieveAll]
      cases hr : CarlaSyncMode._retrieve_data f q0.items with
      | error e => simp [retrieve_error_eq f q0.items e hr]
      | ok p =>
        cases p with
        | mk d rest =>
          have htail := ih ⟨q, h3, hnone⟩
          cases h2 : CarlaSyncMode.retrieveAll f qs with
          | mk r qs' =>
            rw [h2] at htail
            simp at htail
            rw [htail]

/-- After any retrieval pass (successful or not) each queue keeps its source
tag and its remaining items form a suffix of what it held before: only
front items were consumed, and un-drained items are untouched. -/
theorem retrieveAll_suffix (f : Nat) :
    ∀ qs : List TaggedQueue,
      List.Forall₂ (fun a b => a.src = b.src ∧ a.items.IsSuffix b.items)
        (CarlaSyncMode.retrieveAll f qs).2 qs := by
  intro qs
  induction qs with
  | nil => exact List.Forall₂.nil
  | cons q qs ih =>
    simp only [CarlaSyncMode.retrieveAll]
    cases hr : CarlaSyncMode._retrieve_data f q.items with
    | error e =>
      refine List.Forall₂.cons ⟨rfl, List.nil_suffix⟩ ?_
      exact List.forall₂_same.2 (fun x _ => ⟨rfl, List.suffix_refl x.items⟩)
    | ok p =>
      cases p with
      | mk d rest =>
        have hsuf := retrieve_suffix f q.items rest d hr
        cases h2 : CarlaSyncMode.retrieveAll f qs with
        | mk r qs' =>
          rw [h2] at ih
          cases r with
          | error e => exact List.Forall₂.cons ⟨rfl, hsuf⟩ ih
          | ok items => exact List.Forall₂.cons ⟨rfl, hsuf⟩ ih

/-- The assertion wrapper only lets a bundle through unchanged. -/
theorem checkFrames_ok (f : Nat) (r : Except TickError (List Item)) (data : List Item)
    (h : checkFrames f r = Except.ok data) : r = Except.ok data := by
  cases r with
  | error e => simp [checkFrames] at h
  | ok data' =>
    simp only [checkFrames] at h
    by_cases hall : data'.all (fun x => x.frame == f)
    · rw [if_pos hall] at h
      cases h
      rfl
    · rw [if_neg hall] at h
      cases h

/-! Claim theorems. -/

/-- C1: every `tick` call that returns normally yields a bundle in which
every item's `frame` equals the frame id produced by the simulation step at
the start of the call (which `tick` stores into `self.frame`), hence all
items' frames agree pairwise; the `assert` post-condition in `tick` checks
exactly this equality before returning. -/
theorem C1_frame_alignment (w : World) (s : CarlaSyncMode) (data : List Item)
    (h : (CarlaSyncMode.tick w s).2.2 = Except.ok data) :
    ((CarlaSyncMode.tick w s).2.1).frame = some (w.tick).2 ∧
    (∀ x ∈ data, x.frame = (w.tick).2) ∧
    (∀ x ∈ data, ∀ y ∈ data, x.frame = y.frame) := by
  have hok : (CarlaSyncMode.retrieveAll (w.tick).2 s._queues).1 = Except.ok data :=
    checkFrames_ok (w.tick).2 (CarlaSyncMode.retrieveAll (w.tick).2 s._queues).1 data h
  have hfr := retrieveAll_ok_frames (w.tick).2 s._queues data hok
  exact ⟨rfl, hfr, fun x hx y hy => (hfr x hx).trans (hfr y hy).symm⟩

/-- C1 witness: a concrete successful tick from frame 0 to frame 1 with one
queue holding one frame-1 item. -/
theorem C1_frame_alignment_witness :
    ((CarlaSyncMode.tick (World.mk (WorldSettings.mk false false 0) 0 0)
        (CarlaSyncMode.mk 0 none 0 [TaggedQueue.mk Source.simEvent [Item.mk 1 7]] none)).2.1).frame =
      some ((World.mk (WorldSettings.mk false false 0) 0 0).tick).2 ∧
    (∀ x ∈ [Item.mk 1 7],
      x.frame = ((World.mk (WorldSettings.mk false false 0) 0 0).tick).2) ∧
    (∀ x ∈ [Item.mk 1 7], ∀ y ∈ [Item.mk 1 7], x.frame = y.frame) :=
  C1_frame_alignment (World.mk (WorldSettings.mk false false 0) 0 0)
    (CarlaSyncMode.mk 0 none 0 [TaggedQueue.mk Source.simEvent [Item.mk 1 7]] none)
    [Item.mk 1 7] rfl

/-- C2: retrieval pops items from the front until one matches the current
frame; all earlier-frame items popped on the way are discarded, and for a
queue pre-loaded with stale items followed by the matching one, the
matching item is returned and the queue shrinks by exactly the number of
discarded items plus one. -/
theorem C2_stale_discard (f : Nat) (pre rest : List Item) (d : Item)
    (hpre : ∀ x ∈ pre, x.frame < f) (hd : d.frame = f) :
    CarlaSyncMode._retrieve_data f (pre ++ d :: rest) = Except.ok (d, rest) ∧
    (pre ++ d :: rest).length = rest.length + (pre.length + 1) := by
  refine ⟨retrieve_skips f pre d rest (fun x hx => Nat.ne_of_lt (hpre x hx)) hd, ?_⟩
  simp only [List.length_append, List.length_cons]
  omega

/-- C2 witness: the spec's own scenario, a queue holding frames
[N-2, N-1, N] with N = 5: the frame-5 item is returned and the queue length
drops from 3 to 0, i.e. by the 2 discarded items plus one. -/
theorem C2_stale_discard_witness :
    CarlaSyncMode._retrieve_data 5 ([Item.mk 3 0, Item.mk 4 1] ++ Item.mk 5 2 :: ([] : List Item)) =
      Except.ok (Item.mk 5 2, ([] : List Item)) ∧
    ([Item.mk 3 0, Item.mk 4 1] ++ Item.mk 5 2 :: ([] : List Item)).length =
      ([] : List Item).length + ([Item.mk 3 0, Item.mk 4 1].length + 1) :=
  C2_stale_discard 5 [Item.mk 3 0, Item.mk 4 1] [] (Item.mk 5 2) (by decide) rfl

/-- C3 counterexample: at current frame 5, a queue whose front item carries
frame 6 (greater than the current frame) is handled by silently popping and
discarding that item and returning the later frame-5 item with no error at
all; no protocol-violation failure is surfaced to the caller, refuting the
claim that an over-frame item is treated as fatal. -/
theorem C3_counterexample :
    5 < (Item.mk 6 0).frame ∧
    CarlaSyncMode._retrieve_data 5 [Item.mk 6 0, Item.mk 5 1] =
      Except.ok (Item.mk 5 1, ([] : List Item)) :=
  ⟨by decide, rfl⟩

/-- C3 amended: an item whose frame id is strictly greater than
`current_frame` is not surfaced as an error: `_retrieve_data` silently
discards it exactly like a stale item and keeps scanning until an item with
the exact current frame is found. -/
theorem C3_amended_overframe_discarded (f : Nat) (pre rest : List Item) (d : Item)
    (hpre : ∀ x ∈ pre, f < x.frame) (hd : d.frame = f) :
    CarlaSyncMode._retrieve_data f (pre ++ d :: rest) = Except.ok (d, rest) :=
  retrieve_skips f pre d rest (fun x hx => Ne.symm (Nat.ne_of_lt (hpre x hx))) hd

/-- C3 amended witness: two items from the future (frames 6 and 7) sitting
in front of the frame-5 item are silently discarded. -/
theorem C3_amended_witness :
    CarlaSyncMode._retrieve_data 5 ([Item.mk 6 0, Item.mk 7 1] ++ Item.mk 5 2 :: [Item.mk 9 3]) =
      Except.ok (Item.mk 5 2, [Item.mk 9 3]) :=
  C3_amended_overframe_discarded 5 [Item.mk 6 0, Item.mk 7 1] [Item.mk 9 3] (Item.mk 5 2)
    (by decide) rfl

/-- C4: if some registered queue contains no item of the step's frame id,
the tick call fails with a timeout; no bundle (not even a partial one) is
returned, the world's settings and the captured `_settings` are untouched,
and the registered queue count is preserved, so the still-active
synchronizer allows the caller to retry `tick` or exit the scope. -/
theorem C4_timeout_all_or_nothing (w : World) (s : CarlaSyncMode)
    (h : ∃ q ∈ s._queues, ∀ x ∈ q.items, x.frame ≠ (w.tick).2) :
    (CarlaSyncMode.tick w s).2.2 = Except.error TickError.timeout ∧
    ((CarlaSyncMode.tick w s).1).settings = w.settings ∧
    ((CarlaSyncMode.tick w s).2.1)._settings = s._settings ∧
    ((CarlaSyncMode.tick w s).2.1)._queues.length = s._queues.length := by
  have ht := retrieveAll_timeout (w.tick).2 s._queues h
  refine ⟨?_, rfl, rfl, retrieveAll_length (w.tick).2 s._queues⟩
  show checkFrames (w.tick).2 (CarlaSyncMode.retrieveAll (w.tick).2 s._queues).1 =
    Except.error TickError.timeout
  rw [ht]
  rfl

/-- C4 witness: a tick advancing to frame 1 over a single queue holding only
a stale frame-0 item times out while settings, `_settings` and the queue
count survive. -/
theorem C4_timeout_witness :
    (CarlaSyncMode.tick (World.mk (WorldSettings.mk false false 0) 0 0)
        (CarlaSyncMode.mk 0 none 0 [TaggedQueue.mk Source.simEvent [Item.mk 0 0]] none)).2.2 =
      Except.error TickError.timeout ∧
    ((CarlaSyncMode.tick (World.mk (WorldSettings.mk false false 0) 0 0)
        (CarlaSyncMode.mk 0 none 0 [TaggedQueue.mk Source.simEvent [Item.mk 0 0]] none)).1).settings =
      (World.mk (WorldSettings.mk false false 0) 0 0).settings ∧
    ((CarlaSyncMode.tick (World.mk (WorldSettings.mk false false 0) 0 0)
        (CarlaSyncMode.mk 0 none 0 [TaggedQueue.mk Source.simEvent [Item.mk 0 0]] none)).2.1)._settings =
      (CarlaSyncMode.mk 0 none 0 [TaggedQueue.mk Source.simEvent [Item.mk 0 0]] none)._settings ∧
    ((CarlaSyncMode.tick (World.mk (WorldSettings.mk false false 0) 0 0)
        (CarlaSyncMode.mk 0 none 0 [TaggedQueue.mk Source.simEvent [Item.mk 0 0]] none)).2.1)._queues.length =
      (CarlaSyncMode.mk 0 none 0 [TaggedQueue.mk Source.simEvent [Item.mk 0 0]] none)._queues.length :=
  C4_timeout_all_or_nothing (World.mk (WorldSettings.mk false false 0) 0 0)
    (CarlaSyncMode.mk 0 none 0 [TaggedQueue.mk Source.simEvent [Item.mk 0 0]] none)
    ⟨TaggedQueue.mk Source.simEvent [Item.mk 0 0], by decide, by decide⟩

/-- Neither a delivery burst nor a `tick` call (successful or not) touches
the captured `_settings` of the instance or the settings installed on the
world. -/
theorem runBody_settings :
    ∀ (steps : List (List (List Item))) (p : World × CarlaSyncMode),
      ((runBody steps p).2)._settings = p.2._settings ∧
      (runBody steps p).1.settings = p.1.settings := by
  intro steps
  induction steps with
  | nil => intro p; exact ⟨rfl, rfl⟩
  | cons ds steps ih => intro p; exact ih (tickStep ds p)

/-- `__exit__` after a completed `__enter__` re-applies the captured
settings and raises nothing. -/
theorem exitScope_saved (w : World) (s : CarlaSyncMode) (sv : WorldSettings)
    (h : s._settings = some sv) :
    CarlaSyncMode.exitScope w s = Except.ok ((w.apply_settings sv).1, s) := by
  unfold CarlaSyncMode.exitScope
  rw [h]

/-- C5: the settings captured into `_settings` at scope entry are the
handle's settings read before the new synchronous-mode settings are applied
(capture strictly precedes apply), and after any body — any number of
delivery-and-tick iterations, each of which may succeed or time out —
scope exit restores the handle's settings to exactly the captured ones. -/
theorem C5_settings_restoration (w0 : World) (s0 : CarlaSyncMode)
    (steps : List (List (List Item))) :
    ((CarlaSyncMode.enter w0 s0).2)._settings = some w0.settings ∧
    (CarlaSyncMode.exitScope (runBody steps (CarlaSyncMode.enter w0 s0)).1
        (runBody steps (CarlaSyncMode.enter w0 s0)).2).map (fun p => p.1.settings) =
      Except.ok w0.settings := by
  refine ⟨rfl, ?_⟩
  have hs : ((runBody steps (CarlaSyncMode.enter w0 s0)).2)._settings = some w0.settings := by
    rw [(runBody_settings steps (CarlaSyncMode.enter w0 s0)).1]
    rfl
  rw [exitScope_saved _ _ w0.settings hs]
  rfl

/-- C6: the bundle of a successful tick is ordered exactly by registration:
entry registers the simulation's own tick-event queue first and then one
queue per supplied producer in order, and the bundle aligns index-wise with
the registered queues — its i-th element is the first current-frame item of
the i-th queue — regardless of what else the queues hold. -/
theorem C6_bundle_order (w0 w : World) (s0 s : CarlaSyncMode) (data : List Item)
    (h : (CarlaSyncMode.tick w s).2.2 = Except.ok data) :
    ((CarlaSyncMode.enter w0 s0).2)._queues.map TaggedQueue.src =
      s0._queues.map TaggedQueue.src ++
        (Source.simEvent :: (List.range s0.sensors).map Source.producer) ∧
    s._queues.map (fun q => q.items.find? (fun x => x.frame == (w.tick).2)) =
      data.map some := by
  constructor
  · simp [CarlaSyncMode.enter, List.map_map, Function.comp]
  · exact retrieveAll_ok_find (w.tick).2 s._queues data
      (checkFrames_ok (w.tick).2 (CarlaSyncMode.retrieveAll (w.tick).2 s._queues).1 data h)

/-- C6 witness: entry over two producers registers
[simEvent, producer 0, producer 1]; a concrete successful tick over two
queues (one with a stale front item, one with a future trailing item)
returns the bundle of first frame-1 matches in queue order. -/
theorem C6_bundle_order_witness :
    ((CarlaSyncMode.enter (World.mk (WorldSettings.mk true false 1) 0 0)
        (CarlaSyncMode.mk 2 none 0 [] none)).2)._queues.map TaggedQueue.src =
      ([] : List TaggedQueue).map TaggedQueue.src ++
        (Source.simEvent :: (List.range 2).map Source.producer) ∧
    [TaggedQueue.mk Source.simEvent [Item.mk 0 0, Item.mk 1 5],
     TaggedQueue.mk (Source.producer 0) [Item.mk 1 6, Item.mk 2 9]].map
        (fun q => q.items.find? (fun x =>
          x.frame == ((World.mk (WorldSettings.mk false false 0) 0 0).tick).2)) =
      [Item.mk 1 5, Item.mk 1 6].map some :=
  C6_bundle_order (World.mk (WorldSettings.mk true false 1) 0 0)
    (World.mk (WorldSettings.mk false false 0) 0 0)
    (CarlaSyncMode.mk 2 none 0 [] none)
    (CarlaSyncMode.mk 0 none 0
      [TaggedQueue.mk Source.simEvent [Item.mk 0 0, Item.mk 1 5],
       TaggedQueue.mk (Source.producer 0) [Item.mk 1 6, Item.mk 2 9]] none)
    [Item.mk 1 5, Item.mk 1 6] rfl

/-- C7 counterexample: the settings applied at scope entry set
`no_rendering_mode` to False, i.e. rendering is left enabled and is not
disabled, refuting the claim that entry disables non-essential rendering. -/
theorem C7_counterexample :
    ¬ (((CarlaSyncMode.enter (World.mk (WorldSettings.mk true false 1) 0 0)
          (CarlaSyncMode.init 0 none)).1).settings.no_rendering_mode = true) := by
  decide

/-- C7 amended: scope entry applies settings with `no_rendering_mode`
False (rendering stays enabled), synchronous mode enabled and fixed step
duration `delta_seconds`, and stores the frame id returned by that
apply-settings call into `self.frame`. -/
theorem C7_amended_enter_settings (w : World) (s : CarlaSyncMode) :
    ((CarlaSyncMode.enter w s).1).settings =
      WorldSettings.mk false true s.delta_seconds ∧
    ((CarlaSyncMode.enter w s).2).frame =
      some (w.apply_settings (WorldSettings.mk false true s.delta_seconds)).2 :=
  ⟨rfl, rfl⟩

/-- C8: construction recognizes the tick-rate option (spelled `fps` in the
source) with default 20 and derives `delta_seconds = 1 / rate`; in
particular a synchronizer constructed with no rate supplied has
`delta_seconds = 1 / 20`. -/
theorem C8_rate_default (n : Nat) :
    (CarlaSyncMode.init n none).delta_seconds = 1 / 20 ∧
    ∀ r : ℚ, (CarlaSyncMode.init n (some r)).delta_seconds = 1 / r :=
  ⟨rfl, fun _ => rfl⟩

/-- C9 counterexample: after entering on a concrete world (apply-count 1
right after entry), invoking `__exit__` twice drives the handle's
apply-settings count to 3: the restoration call is performed on both exits,
i.e. twice, refuting the at-most-once part of the claim. -/
theorem C9_counterexample :
    ((CarlaSyncMode.exitScope
        (CarlaSyncMode.enter (World.mk (WorldSettings.mk true false 1) 0 0)
          (CarlaSyncMode.init 0 none)).1
        (CarlaSyncMode.enter (World.mk (WorldSettings.mk true false 1) 0 0)
          (CarlaSyncMode.init 0 none)).2).bind
      (fun p => CarlaSyncMode.exitScope p.1 p.2)).map (fun p => p.1.applyCount) =
      Except.ok 3 ∧
    (CarlaSyncMode.enter (World.mk (WorldSettings.mk true false 1) 0 0)
        (CarlaSyncMode.init 0 none)).1.applyCount = 1 ∧
    ¬ (3 ≤ 1 + 1) :=
  ⟨rfl, rfl, by decide⟩

/-- C9 amended: a second `__exit__` after a completed exit does not raise
and is a no-op with respect to the handle's settings value, which stays
equal to the captured settings; but the restoration is re-performed rather
than skipped — the apply-settings operation runs once more, because
`_settings` is never cleared. -/
theorem C9_amended_double_exit (w : World) (s : CarlaSyncMode) (sv : WorldSettings)
    (h : s._settings = some sv) :
    CarlaSyncMode.exitScope w s = Except.ok ((w.apply_settings sv).1, s) ∧
    ((w.apply_settings sv).1).settings = sv ∧
    CarlaSyncMode.exitScope (w.apply_settings sv).1 s =
      Except.ok ((((w.apply_settings sv).1).apply_settings sv).1, s) ∧
    ((((w.apply_settings sv).1).apply_settings sv).1).settings =
      ((w.apply_settings sv).1).settings ∧
    ((((w.apply_settings sv).1).apply_settings sv).1).applyCount =
      ((w.apply_settings sv).1).applyCount + 1 :=
  ⟨exitScope_saved w s sv h, rfl, exitScope_saved ((w.apply_settings sv).1) s sv h, rfl, rfl⟩

/-- C9 amended witness: double exit on a concrete post-enter state. -/
theorem C9_amended_witness :
    CarlaSyncMode.exitScope (World.mk (WorldSettings.mk false true 0) 5 1)
        (CarlaSyncMode.mk 0 (some 5) 0 [] (some (WorldSettings.mk true false 1))) =
      Except.ok (((World.mk (WorldSettings.mk false true 0) 5 1).apply_settings
          (WorldSettings.mk true false 1)).1,
        CarlaSyncMode.mk 0 (some 5) 0 [] (some (WorldSettings.mk true false 1))) ∧
    (((World.mk (WorldSettings.mk false true 0) 5 1).apply_settings
        (WorldSettings.mk true false 1)).1).settings = WorldSettings.mk true false 1 ∧
    CarlaSyncMode.exitScope ((World.mk (WorldSettings.mk false true 0) 5 1).apply_settings
          (WorldSettings.mk true false 1)).1
        (CarlaSyncMode.mk 0 (some 5) 0 [] (some (WorldSettings.mk true false 1))) =
      Except.ok (((((World.mk (WorldSettings.mk false true 0) 5 1).apply_settings
            (WorldSettings.mk true false 1)).1).apply_settings
            (WorldSettings.mk true false 1)).1,
        CarlaSyncMode.mk 0 (some 5) 0 [] (some (WorldSettings.mk true false 1))) ∧
    (((((World.mk (WorldSettings.mk false true 0) 5 1).apply_settings
          (WorldSettings.mk true false 1)).1).apply_settings
          (WorldSettings.mk true false 1)).1).settings =
      (((World.mk (WorldSettings.mk false true 0) 5 1).apply_settings
          (WorldSettings.mk true false 1)).1).settings ∧
    (((((World.mk (WorldSettings.mk false true 0) 5 1).apply_settings
          (WorldSettings.mk true false 1)).1).apply_settings
          (WorldSettings.mk true false 1)).1).applyCount =
      (((World.mk (WorldSettings.mk false true 0) 5 1).apply_settings
          (WorldSettings.mk true false 1)).1).applyCount + 1 :=
  C9_amended_double_exit (World.mk (WorldSettings.mk false true 0) 5 1)
    (CarlaSyncMode.mk 0 (some 5) 0 [] (some (WorldSettings.mk true false 1)))
    (WorldSettings.mk true false 1) rfl

/-- C10: `tick` stores the frame id returned by the simulation step into
`self.frame`; the stored value depends only on the stepped world, never on
the queues, and the update survives a failing call: whatever the result,
the state's frame equals the step's frame id, and every queue keeps its
registration tag with its remaining items an untouched suffix of what it
held before (items are only ever consumed from the front, never rolled
back, cleared or reordered). -/
theorem C10_frame_update_persists (w : World) (s : CarlaSyncMode) :
    ((CarlaSyncMode.tick w s).2.1).frame = some (w.tick).2 ∧
    List.Forall₂ (fun a b => a.src = b.src ∧ a.items.IsSuffix b.items)
      ((CarlaSyncMode.tick w s).2.1)._queues s._queues :=
  ⟨rfl, retrieveAll_suffix (w.tick).2 s._queues⟩

end SyncMode
